import Mathlib

/-!
Shallow embedding of the rotation engine of chriszhangmq/file-rotatelogs.

Time is modelled as an integer number of seconds; formatting a time with the
format "2006-01-02" and parsing it back (as the Go code does in
timeutil.IsMaxDay / timeutil.CompareTimeWithDay) truncates it to a day
boundary, which here is floor-division by 86400.

The filesystem is modelled as a partial map from paths to stat results
(size, symlink bit, base name).  Library calls that the code treats as
opaque (the regex-based ParseTimeFromFileName, strftime date formatting of
the current clock value, MkdirAll/OpenFile success) are modelled as oracle
fields of an environment record; everything else is translated directly
from the Go source (src/rotatelogs.go first variant, src/internal).
-/

/-- common.TimeFormat is "2006-01-02": truncation to that format keeps the day. -/
def dayOf (t : Int) : Int := Int.fdiv t 86400

/-- common.FileSuffix -/
def FileSuffix : String := ".log"

/-- common.CompressSuffix -/
def CompressSuffix : String := ".gz"

/-- common.LockSuffix -/
def LockSuffix : String := "_lock"

/-- common.SymlinkSuffix -/
def SymlinkSuffix : String := "_symlink"

/-- common.IsNull -/
def IsNull : String := ""

/-- timeutil.IsMaxDay: format both times with "2006-01-02", parse back
(truncating each to its day), and test fileDate.Before(cutOffDate). -/
def isMaxDay (cutOffTime fileTime : Int) : Bool :=
  decide (dayOf fileTime < dayOf cutOffTime)

/-- timeutil.CompareTimeWithDay: truncate only the cutoff to its day and test
fileTime.Before(cutOffDate). -/
def compareTimeWithDay (cutOffTime fileTime : Int) : Bool :=
  decide (fileTime < dayOf cutOffTime * 86400)

/-- The part of an os.FileInfo the code consults: Size(), the symlink mode
bit (from Lstat) and Name() (the base name). -/
structure Stat where
  size : Int
  symlink : Bool
  name : String
deriving DecidableEq

/-- Filesystem: os.Stat either fails (none) or yields a Stat. -/
abbrev FS := String → Option Stat

/-- The immutable configuration produced by New (durations in seconds,
sizes in bytes). -/
structure Config where
  rotationSize : Int
  rotationTime : Int
  maxAge : Int
  rotationCount : Nat
  filePath : String
  fileName : String
  linkName : String
deriving DecidableEq

/-- Environment of one engine call: filesystem, the regex/strftime oracles,
the clock value, the handle a successful CreateFile returns, and success of
the OS calls CreateFile (for non-empty names) and the symlink sequence. -/
structure Env where
  fs : FS
  parseTime : String → Option Int
  now : Int
  dateStr : String
  freshFh : Nat
  createOk : String → Bool
  symlinkOk : Bool

/-- Mutable engine state guarded by the in-process mutex. -/
structure RLState where
  curFn : String
  outFh : Nat
  generation : Nat
deriving DecidableEq

/-- CurrentFileName returns rl.curFn. -/
def currentFileName (st : RLState) : String := st.curFn

/-- strings.HasSuffix, over the character list so that it evaluates in the
kernel. -/
def hasSuffix (s suffix : String) : Bool :=
  List.isSuffixOf suffix.toList s.toList

/-- fileutil.GenerateFileNme: (path ++ name ++ "-" ++ date, name ++ "-" ++ date). -/
def generateFileNme (path name dateStr : String) : String × String :=
  let fileName := name ++ "-" ++ dateStr
  (path ++ fileName, fileName)

/-- Base candidate of fileutil.GetNewFileName: GenerateFileNme plus ".log". -/
def baseCand (filePath fileName dateStr : String) : String :=
  (generateFileNme filePath fileName dateStr).1 ++ FileSuffix

/-- Indexed candidate of fileutil.GetNewFileName's loop:
GenerateFileNme plus "." ++ index ++ ".log". -/
def candName (filePath fileName dateStr : String) (i : Nat) : String :=
  (generateFileNme filePath fileName dateStr).1 ++ "." ++ toString i ++ FileSuffix

/-- Condition under which fileutil.GetNewFileName returns the base candidate
before entering its loop: (absent and compressed sibling absent), or
(rotationSize disabled and compressed sibling absent), or (rotationSize
enabled, file present and strictly below the threshold). -/
def baseEligible (fs : FS) (rotationSize : Int) (nm : String) : Bool :=
  ((fs nm).isNone && (fs (nm ++ CompressSuffix)).isNone)
  || (decide (rotationSize ≤ 0) && (fs (nm ++ CompressSuffix)).isNone)
  || (decide (0 < rotationSize) &&
      (match fs nm with
       | some fi => decide (fi.size < rotationSize)
       | none => false))

/-- Condition under which fileutil.GetNewFileName's loop returns the current
indexed candidate: (absent and compressed sibling absent), or (present,
rotationSize enabled and strictly below the threshold). -/
def loopEligible (fs : FS) (rotationSize : Int) (nm : String) : Bool :=
  match fs nm with
  | none => (fs (nm ++ CompressSuffix)).isNone
  | some fi => decide (0 < rotationSize) && decide (fi.size < rotationSize)

/-- The unbounded for-loop of fileutil.GetNewFileName, indexed from i, with
fuel standing in for the unbounded search (the Go loop only terminates when
an eligible index exists). -/
def getNewFileNameLoop (fs : FS) (rotationSize : Int)
    (filePath fileName dateStr : String) : Nat → Nat → Option String
  | 0, _ => none
  | fuel + 1, i =>
    let nm := candName filePath fileName dateStr i
    if loopEligible fs rotationSize nm then some nm
    else getNewFileNameLoop fs rotationSize filePath fileName dateStr fuel (i + 1)

/-- fileutil.GetNewFileName (the with-path component of its result). -/
def getNewFileName (fs : FS) (filePath fileName : String) (rotationSize : Int)
    (dateStr : String) (fuel : Nat) : Option String :=
  let nm := baseCand filePath fileName dateStr
  if baseEligible fs rotationSize nm then some nm
  else getNewFileNameLoop fs rotationSize filePath fileName dateStr fuel 1

/-- The rotate-or-not decision at the top of getWriterNolock:
(forceNewFile, sizeRotation).  Stat failure forces; an enabled size
threshold at or above the current size forces with the size tag; otherwise
with time rotation enabled the embedded bucket is parsed and compared
against now - rotationTime (parse failure also forces). -/
def rotationDecision (cfg : Config) (env : Env) (curFn : String) : Bool × Bool :=
  match env.fs curFn with
  | none => (true, false)
  | some fi =>
    if 0 < cfg.rotationSize ∧ cfg.rotationSize ≤ fi.size then (true, true)
    else if 0 < cfg.rotationTime then
      match env.parseTime curFn with
      | none => (true, false)
      | some t => (compareTimeWithDay (env.now - cfg.rotationTime) t, false)
    else (false, false)

/-- rotateNolock reduced to success or failure: the exclusive creation of the
lock marker fails when the marker already exists; with a link name set the
symlink sequence may fail; finally the function errors when maxAge and
rotationCount are both unset. -/
def rotateNolockOk (cfg : Config) (env : Env) (filename : String) : Bool :=
  (env.fs (filename ++ LockSuffix)).isNone
  && (cfg.linkName == IsNull || env.symlinkOk)
  && !(decide (cfg.maxAge ≤ 0) && decide (cfg.rotationCount = 0))

/-- Error outcomes of getWriterNolock. -/
inductive WError where
  | fuelExhausted
  | createFail
  | rotateFail
deriving DecidableEq

/-- Outcome of getWriterNolock: the returned writer (or error), the engine
state after the call, and whether the freshly created handle was closed
before returning. -/
structure WOut where
  result : Except WError Nat
  state : RLState
  closedNewFh : Bool

/-- getWriterNolock (src/rotatelogs.go lines 150-218).  The saved generation
is written back verbatim at the end of a switch.  A rotateNolock failure
with bailOnRotateFail set closes the new handle and leaves the state
untouched; without it the failure is only logged and the switch to the new
file still happens.  An empty filename (the no-force path reached with
useGenerationalNames) makes CreateFile fail with ENOENT. -/
def getWriterNolock (cfg : Config) (env : Env) (st : RLState)
    (bailOnRotateFail useGenerationalNames : Bool) (fuel : Nat) : WOut :=
  let generation := st.generation
  let dec := rotationDecision cfg env st.curFn
  if !dec.1 && !dec.2 && !useGenerationalNames then
    ⟨Except.ok st.outFh, st, false⟩
  else
    match (if dec.1 then
             getNewFileName env.fs cfg.filePath cfg.fileName cfg.rotationSize
               env.dateStr fuel
           else some IsNull) with
    | none => ⟨Except.error WError.fuelExhausted, st, false⟩
    | some filename =>
      if filename = IsNull || !env.createOk filename then
        ⟨Except.error WError.createFail, st, false⟩
      else if !rotateNolockOk cfg env filename then
        if bailOnRotateFail then ⟨Except.error WError.rotateFail, st, true⟩
        else ⟨Except.ok env.freshFh, ⟨filename, env.freshFh, generation⟩, false⟩
      else ⟨Except.ok env.freshFh, ⟨filename, env.freshFh, generation⟩, false⟩

/-- Write acquires the writer via getWriterNolock(false, false). -/
def Write (cfg : Config) (env : Env) (st : RLState) (fuel : Nat) : WOut :=
  getWriterNolock cfg env st false false fuel

/-- Rotate acquires the writer via getWriterNolock(true, true). -/
def Rotate (cfg : Config) (env : Env) (st : RLState) (fuel : Nat) : WOut :=
  getWriterNolock cfg env st true true fuel

/-- deleteFile (src/rotatelogs.go lines 424-461): from the glob matches,
the list of paths collected into removeFiles and then removed.  Marker
suffixes are skipped, stat/Lstat failures and symlinks are skipped, parse
failures are skipped, and a file is removed when maxAge is enabled and
IsMaxDay holds against cutoff = now - maxAge. -/
def deleteFile (cfg : Config) (env : Env) (globMatches : List String) : List String :=
  let cutoff := env.now - cfg.maxAge
  globMatches.filter fun path =>
    if hasSuffix path LockSuffix || hasSuffix path SymlinkSuffix then false
    else
      match env.fs path with
      | none => false
      | some fi =>
        if fi.symlink then false
        else
          match env.parseTime fi.name with
          | none => false
          | some t => decide (0 < cfg.maxAge) && isMaxDay cutoff t

/-- C1: every branch of getWriterNolock either keeps the state or writes the
saved generation back unchanged, so the generation after any call equals
the generation before. -/
theorem c1_generation_unchanged (cfg : Config) (env : Env) (st : RLState)
    (b u : Bool) (fuel : Nat) :
    (getWriterNolock cfg env st b u fuel).state.generation = st.generation := by
  unfold getWriterNolock
  dsimp only
  split
  · rfl
  · split
    · rfl
    · split
      · rfl
      · split
        · split <;> rfl
        · rfl

/-- Fixture for C1: empty filesystem apart from nothing at all, so the
current file is missing and a rotation is forced; the lock marker is absent
and the base candidate for the new day is free, so the rotation succeeds. -/
def fs1 : FS := fun _ => none

/-- Fixture configuration for C1. -/
def cfg1 : Config :=
  ⟨0, 86400, 172800, 0, "d/", "app", IsNull⟩

/-- Fixture environment for C1. -/
def env1 : Env :=
  ⟨fs1, fun _ => none, 18946 * 86400 + 3600, "2021-11-15", 7, fun _ => true, true⟩

/-- Fixture engine state for C1: generation 5. -/
def st1 : RLState := ⟨"d/app-2021-11-14.log", 3, 5⟩

/-- C1 counterexample: a Write that performs a successful rotation (the
result is the fresh handle and the current name changes) after which the
generation is 5, exactly its previous value — not strictly greater. -/
theorem c1_counterexample :
    (Write cfg1 env1 st1 10).result = Except.ok 7 ∧
    (Write cfg1 env1 st1 10).state.curFn = "d/app-2021-11-15.log" ∧
    st1.curFn ≠ "d/app-2021-11-15.log" ∧
    (Write cfg1 env1 st1 10).state.generation = st1.generation ∧
    ¬ st1.generation < (Write cfg1 env1 st1 10).state.generation :=
  ⟨rfl, by decide, by decide, by decide, by decide⟩

/-- C3 (amended): when a Write-path rotation reaches a failing rotateNolock
(bailOnRotateFail is false), the failure is only logged: the engine still
closes the old handle, adopts the freshly created file and path, and the
write proceeds against the new handle — not the previous one. -/
theorem c3_lock_fail_still_switches (cfg : Config) (env : Env) (st : RLState)
    (fuel : Nat) (nm : String)
    (hdec : (rotationDecision cfg env st.curFn).1 = true)
    (hname : getNewFileName env.fs cfg.filePath cfg.fileName cfg.rotationSize
      env.dateStr fuel = some nm)
    (hne : nm ≠ IsNull)
    (hcreate : env.createOk nm = true)
    (hlock : rotateNolockOk cfg env nm = false) :
    Write cfg env st fuel =
      ⟨Except.ok env.freshFh, ⟨nm, env.freshFh, st.generation⟩, false⟩ := by
  unfold Write getWriterNolock
  simp only [hdec, hname, hne, hcreate, hlock, Bool.not_true, Bool.false_and,
    Bool.not_false, if_false, ite_false, Bool.false_eq_true, if_true, ite_true]
  simp [hne]

/-- Fixture filesystem for C3: the engine's current file is gone, the next
base candidate is free, but its lock marker exists, so rotateNolock fails. -/
def fs3 : FS := fun p =>
  if p = "d/app-2021-11-15.log_lock" then some ⟨0, false, "app-2021-11-15.log_lock"⟩
  else none

/-- Fixture configuration for C3. -/
def cfg3 : Config :=
  ⟨0, 86400, 172800, 0, "d/", "app", IsNull⟩

/-- Fixture environment for C3. -/
def env3 : Env :=
  ⟨fs3, fun _ => none, 18946 * 86400 + 3600, "2021-11-15", 7, fun _ => true, true⟩

/-- Fixture engine state for C3. -/
def st3 : RLState := ⟨"d/app-2021-11-14.log", 3, 5⟩

/-- C3 counterexample: rotateNolock fails on the write path, yet the Write
switches path and handle to the new file (the claim says both stay
unchanged and the write proceeds on the previous handle). -/
theorem c3_counterexample :
    rotateNolockOk cfg3 env3 "d/app-2021-11-15.log" = false ∧
    (Write cfg3 env3 st3 10).state.curFn = "d/app-2021-11-15.log" ∧
    st3.curFn ≠ "d/app-2021-11-15.log" ∧
    (Write cfg3 env3 st3 10).result = Except.ok env3.freshFh ∧
    st3.outFh ≠ env3.freshFh :=
  ⟨by decide, by decide, by decide, rfl, by decide⟩

/-- Witness input for the amended C3 theorem, instantiated below. -/
theorem c3_witness :
    Write cfg3 env3 st3 10 =
      ⟨Except.ok env3.freshFh, ⟨"d/app-2021-11-15.log", env3.freshFh,
        st3.generation⟩, false⟩ :=
  c3_lock_fail_still_switches cfg3 env3 st3 10 "d/app-2021-11-15.log"
    (by decide) (by decide) (by decide) (by decide) (by decide)

/-- Fixture filesystem for C4: the current file exists, is small, carries
today's bucket; nothing else exists. -/
def fs4 : FS := fun p =>
  if p = "d/app-2021-11-14.log" then some ⟨10, false, "app-2021-11-14.log"⟩
  else none

/-- Fixture configuration for C4: size rotation disabled, daily time
rotation, two-day max age. -/
def cfg4 : Config :=
  ⟨0, 86400, 172800, 0, "d/", "app", IsNull⟩

/-- Fixture environment for C4: the clock sits one hour into the same day
the current file's bucket names, so no time rotation is due. -/
def env4 : Env :=
  ⟨fs4,
   fun p => if p = "d/app-2021-11-14.log" then some (18945 * 86400) else none,
   18945 * 86400 + 3600, "2021-11-14", 7, fun _ => true, true⟩

/-- Fixture engine state for C4. -/
def st4 : RLState := ⟨"d/app-2021-11-14.log", 3, 5⟩

/-- C4: with no size or time rotation due, Rotate leaves the internal
filename empty, so CreateFile fails with ENOENT and Rotate returns an error
without performing any rotation — contradicting its own documentation that
it forcefully rotates, falling back to numeric suffixes on collision. -/
theorem c4_rotate_fails_when_not_due :
    rotationDecision cfg4 env4 st4.curFn = (false, false) ∧
    Rotate cfg4 env4 st4 10 = ⟨Except.error WError.createFail, st4, false⟩ :=
  ⟨by decide, rfl⟩

/-- C5: when Rotate's rotation path reaches a failing rotateNolock, the call
returns the rotation error, leaves the engine state (current path and
handle) untouched, and closes the freshly created handle before returning. -/
theorem c5_rotate_lock_fail_no_switch (cfg : Config) (env : Env) (st : RLState)
    (fuel : Nat) (nm : String)
    (hdec : (rotationDecision cfg env st.curFn).1 = true)
    (hname : getNewFileName env.fs cfg.filePath cfg.fileName cfg.rotationSize
      env.dateStr fuel = some nm)
    (hne : nm ≠ IsNull)
    (hcreate : env.createOk nm = true)
    (hlock : rotateNolockOk cfg env nm = false) :
    Rotate cfg env st fuel = ⟨Except.error WError.rotateFail, st, true⟩ := by
  unfold Rotate getWriterNolock
  simp only [hdec, hname, hne, hcreate, hlock, Bool.not_true, Bool.false_and,
    Bool.not_false, if_false, ite_false, Bool.false_eq_true, if_true, ite_true]
  simp [hne]

/-- Fixture filesystem for C5: current file gone (rotation forced), base
candidate free, but its lock marker is present. -/
def fs5 : FS := fun p =>
  if p = "d/app-2021-11-15.log_lock" then some ⟨0, false, "app-2021-11-15.log_lock"⟩
  else none

/-- Fixture configuration for C5. -/
def cfg5 : Config :=
  ⟨0, 86400, 172800, 0, "d/", "app", IsNull⟩

/-- Fixture environment for C5. -/
def env5 : Env :=
  ⟨fs5, fun _ => none, 18946 * 86400 + 3600, "2021-11-15", 7, fun _ => true, true⟩

/-- Fixture engine state for C5. -/
def st5 : RLState := ⟨"d/app-2021-11-14.log", 3, 5⟩

/-- Witness for C5 at a concrete input. -/
theorem c5_witness :
    Rotate cfg5 env5 st5 10 = ⟨Except.error WError.rotateFail, st5, true⟩ :=
  c5_rotate_lock_fail_no_switch cfg5 env5 st5 10 "d/app-2021-11-15.log"
    (by decide) (by decide) (by decide) (by decide) (by decide)

/-- C8: under the age policy a parseable, non-marker, non-symlink family
file is collected for removal exactly when maxAge is enabled and its bucket
day strictly precedes the day of now - maxAge (day-granularity comparison,
as in timeutil.IsMaxDay). -/
theorem c8_age_policy_iff (cfg : Config) (env : Env) (globMatches : List String)
    (p : String) (fi : Stat) (t : Int)
    (hmem : p ∈ globMatches)
    (hlock : hasSuffix p LockSuffix = false)
    (hsym : hasSuffix p SymlinkSuffix = false)
    (hstat : env.fs p = some fi)
    (hnotsym : fi.symlink = false)
    (hparse : env.parseTime fi.name = some t) :
    p ∈ deleteFile cfg env globMatches ↔
      0 < cfg.maxAge ∧ dayOf t < dayOf (env.now - cfg.maxAge) := by
  unfold deleteFile
  rw [List.mem_filter]
  simp [hmem, hlock, hsym, hstat, hnotsym, hparse, isMaxDay]

/-- Fixture filesystem for C8: a single family file whose embedded bucket is
day 5. -/
def fs8 : FS := fun p =>
  if p = "d/app-day5.log" then some ⟨10, false, "app-day5.log"⟩
  else none

/-- Fixture configuration for C8: maxAge two days. -/
def cfg8 : Config :=
  ⟨0, 86400, 172800, 0, "d/", "app", IsNull⟩

/-- Fixture environment for C8: the clock is one hour into day 10; the day-5
file parses to the start of day 5. -/
def env8 : Env :=
  ⟨fs8,
   fun n => if n = "app-day5.log" then some (5 * 86400) else none,
   10 * 86400 + 3600, "day10", 7, fun _ => true, true⟩

/-- Witness for C8: with maxAge two days and the clock on day 10, the day-5
file is removed (its day 5 is strictly before day 8, the day of the
cutoff). -/
theorem c8_witness :
    "d/app-day5.log" ∈ deleteFile cfg8 env8 ["d/app-day5.log"] :=
  (c8_age_policy_iff cfg8 env8 ["d/app-day5.log"] "d/app-day5.log"
    ⟨10, false, "app-day5.log"⟩ (5 * 86400)
    (by decide) (by decide) (by decide) (by decide) (by decide) (by decide)).mpr
    (by decide)

/-- C2 (amended): deleteFile applies the age rule with no exemption for the
active file: whenever the path currently returned by currentFileName is
among the glob matches, is no marker, stats as a regular file, parses, and
its bucket day precedes the cutoff day, it is collected for removal. -/
theorem c2_active_file_deleted (cfg : Config) (env : Env) (st : RLState)
    (globMatches : List String) (fi : Stat) (t : Int)
    (hmem : currentFileName st ∈ globMatches)
    (hlock : hasSuffix (currentFileName st) LockSuffix = false)
    (hsym : hasSuffix (currentFileName st) SymlinkSuffix = false)
    (hstat : env.fs (currentFileName st) = some fi)
    (hnotsym : fi.symlink = false)
    (hparse : env.parseTime fi.name = some t)
    (hage : 0 < cfg.maxAge)
    (hold : dayOf t < dayOf (env.now - cfg.maxAge)) :
    currentFileName st ∈ deleteFile cfg env globMatches := by
  unfold deleteFile
  rw [List.mem_filter]
  simp [hmem, hlock, hsym, hstat, hnotsym, hparse, isMaxDay, hage, hold]

/-- Fixture filesystem for C2: the engine's current file exists and its
embedded bucket is day 18945. -/
def fs2 : FS := fun p =>
  if p = "d/app-2021-11-14.log" then some ⟨10, false, "app-2021-11-14.log"⟩
  else none

/-- Fixture configuration for C2: maxAge two days. -/
def cfg2 : Config :=
  ⟨0, 86400, 172800, 0, "d/", "app", IsNull⟩

/-- Fixture environment for C2: the clock is five days past the current
file's bucket, so the bucket precedes the cutoff. -/
def env2 : Env :=
  ⟨fs2,
   fun n => if n = "app-2021-11-14.log" then some (18945 * 86400) else none,
   18950 * 86400 + 3600, "2021-11-19", 7, fun _ => true, true⟩

/-- Fixture engine state for C2: the stale file is still the active one. -/
def st2 : RLState := ⟨"d/app-2021-11-14.log", 3, 5⟩

/-- C2 counterexample: the age pass collects the exact path currentFileName
returns, even though it is the active file. -/
theorem c2_counterexample :
    currentFileName st2 ∈ deleteFile cfg2 env2 ["d/app-2021-11-14.log"] := by
  decide

/-- Witness for the amended C2 theorem at a concrete input. -/
theorem c2_witness :
    currentFileName st2 ∈ deleteFile cfg2 env2 ["d/other.log", "d/app-2021-11-14.log"] :=
  c2_active_file_deleted cfg2 env2 st2 ["d/other.log", "d/app-2021-11-14.log"]
    ⟨10, false, "app-2021-11-14.log"⟩ (18945 * 86400)
    (by decide) (by decide) (by decide) (by decide) (by decide) (by decide)
    (by decide) (by decide)

/-- Modelled from the spec's words, for comparison in claim C7 only: a
candidate is eligible when it "does not exist, or exists with size below
the rotation-size threshold". -/
def specEligible (fs : FS) (rotationSize : Int) (nm : String) : Bool :=
  match fs nm with
  | none => true
  | some fi => decide (0 < rotationSize) && decide (fi.size < rotationSize)

/-- The loop of fileutil.GetNewFileName returns the candidate with the least
index at or above its starting index that satisfies loopEligible. -/
theorem getNewFileNameLoop_least (fs : FS) (rs : Int) (fp fn ds : String) :
    ∀ (fuel i : Nat) (nm : String),
      getNewFileNameLoop fs rs fp fn ds fuel i = some nm →
      ∃ k, i ≤ k ∧ nm = candName fp fn ds k ∧
        loopEligible fs rs (candName fp fn ds k) = true ∧
        ∀ j, i ≤ j → j < k → loopEligible fs rs (candName fp fn ds j) = false := by
  intro fuel
  induction fuel with
  | zero =>
    intro i nm h
    simp [getNewFileNameLoop] at h
  | succ fuel ih =>
    intro i nm h
    simp only [getNewFileNameLoop] at h
    cases hb : loopEligible fs rs (candName fp fn ds i) with
    | true =>
      rw [hb] at h
      have h2 : candName fp fn ds i = nm := by simpa using h
      exact ⟨i, Nat.le_refl i, h2.symm, hb,
        fun j hij hji => absurd (Nat.lt_of_le_of_lt hij hji) (Nat.lt_irrefl i)⟩
    | false =>
      rw [hb] at h
      have h2 : getNewFileNameLoop fs rs fp fn ds fuel (i + 1) = some nm := by
        simpa using h
      obtain ⟨k, hik, hnm, hk, hleast⟩ := ih (i + 1) nm h2
      refine ⟨k, by omega, hnm, hk, ?_⟩
      intro j hij hjk
      rcases Nat.lt_or_ge j (i + 1) with hji | hji
      · have : j = i := by omega
        rw [this]
        exact hb
      · exact hleast j hji hjk

/-- C7 (amended): the generator returns the base candidate when it is
eligible for reuse per baseEligible (which also demands the absence of the
compressed ".gz" sibling), and otherwise the candidate with the least
numeric suffix, starting at 1 and strictly ascending, that satisfies
loopEligible (absent with absent compressed sibling, or present and
strictly below an enabled rotation-size threshold). -/
theorem c7_collision_least (fs : FS) (fp fn : String) (rs : Int) (ds : String)
    (fuel : Nat) (nm : String)
    (h : getNewFileName fs fp fn rs ds fuel = some nm) :
    (baseEligible fs rs (baseCand fp fn ds) = true ∧ nm = baseCand fp fn ds) ∨
    (∃ k, 1 ≤ k ∧ nm = candName fp fn ds k ∧
      loopEligible fs rs (candName fp fn ds k) = true ∧
      ∀ j, 1 ≤ j → j < k → loopEligible fs rs (candName fp fn ds j) = false) := by
  unfold getNewFileName at h
  dsimp only at h
  cases hb : baseEligible fs rs (baseCand fp fn ds) with
  | true =>
    left
    rw [hb] at h
    have h2 : baseCand fp fn ds = nm := by simpa using h
    exact ⟨rfl, h2.symm⟩
  | false =>
    right
    rw [hb] at h
    have h2 : getNewFileNameLoop fs rs fp fn ds fuel 1 = some nm := by simpa using h
    exact getNewFileNameLoop_least fs rs fp fn ds fuel 1 nm h2

/-- Fixture filesystem for the C7 counterexample: the base file is full for
threshold 50, the index-1 candidate is absent but its compressed sibling
exists, the index-2 candidate and its sibling are absent. -/
def fs7ce : FS := fun p =>
  if p = "d/app-2021-11-14.log" then some ⟨100, false, "app-2021-11-14.log"⟩
  else if p = "d/app-2021-11-14.1.log.gz" then some ⟨30, false, "app-2021-11-14.1.log.gz"⟩
  else none

/-- C7 counterexample: the index-1 candidate is eligible under the claim's
own criterion (it does not exist), yet the generator skips it because its
compressed sibling exists and returns the index-2 candidate instead. -/
theorem c7_counterexample :
    specEligible fs7ce 50 (candName "d/" "app" "2021-11-14" 1) = true ∧
    getNewFileName fs7ce "d/" "app" 50 "2021-11-14" 10 =
      some (candName "d/" "app" "2021-11-14" 2) ∧
    candName "d/" "app" "2021-11-14" 2 ≠ candName "d/" "app" "2021-11-14" 1 :=
  ⟨by decide, by decide, by decide⟩

/-- Fixture filesystem for the C7 witness: full files (threshold 50) at the
base and at indices 1 and 2; index 3 free. -/
def fs7w : FS := fun p =>
  if p = "d/app-2021-11-14.log" then some ⟨50, false, "app-2021-11-14.log"⟩
  else if p = "d/app-2021-11-14.1.log" then some ⟨60, false, "app-2021-11-14.1.log"⟩
  else if p = "d/app-2021-11-14.2.log" then some ⟨70, false, "app-2021-11-14.2.log"⟩
  else none

/-- Witness for C7: with full files at indices 0, 1 and 2, the generated
name uses index 3, and the amended characterisation holds of it. -/
theorem c7_witness :
    (baseEligible fs7w 50 (baseCand "d/" "app" "2021-11-14") = true ∧
      candName "d/" "app" "2021-11-14" 3 = baseCand "d/" "app" "2021-11-14") ∨
    (∃ k, 1 ≤ k ∧
      candName "d/" "app" "2021-11-14" 3 = candName "d/" "app" "2021-11-14" k ∧
      loopEligible fs7w 50 (candName "d/" "app" "2021-11-14" k) = true ∧
      ∀ j, 1 ≤ j → j < k →
        loopEligible fs7w 50 (candName "d/" "app" "2021-11-14" j) = false) :=
  c7_collision_least fs7w "d/" "app" 50 "2021-11-14" 10
    (candName "d/" "app" "2021-11-14" 3) (by decide)

/-- The negative-option clamping New applies while reading options
(a negative MaxAge / RotationTime / RotationSize becomes 0). -/
def clampNonneg (x : Int) : Int := if x < 0 then 0 else x

/-- Clamping preserves strict positivity. -/
theorem clampNonneg_pos (x : Int) : 0 < clampNonneg x ↔ 0 < x := by
  unfold clampNonneg
  split <;> omega

/-- Clamping preserves non-positivity. -/
theorem clampNonneg_nonpos (x : Int) : clampNonneg x ≤ 0 ↔ x ≤ 0 := by
  unfold clampNonneg
  split <;> omega

/-- len(strings.Trim(s, " ")) <= 0 holds exactly when s is all spaces. -/
def allSpaces (s : String) : Bool := s.toList.all (fun c => c == ' ')

/-- The option values New consumes (src/rotatelogs.go lines 33-82), with the
success of strftime.New carried as an oracle bit. -/
structure NewArgs where
  maxAge : Int
  rotationTime : Int
  rotationSize : Int
  rotationCount : Nat
  filePath : String
  fileName : String
  compressFile : Bool
  cronTime : String
  linkNameOpt : Bool
  patternOk : Bool

/-- Boolean error test on Except. -/
def isErr {e a : Type} : Except e a → Bool
  | Except.error _ => true
  | Except.ok _ => false

/-- New (src/rotatelogs.go lines 84-130): the validation sequence and the
constructed configuration, with durations scaled to seconds and the size to
bytes exactly as the source scales them to nanoseconds and bytes. -/
def newRotateLogs (a : NewArgs) : Except String Config :=
  let maxAge := clampNonneg a.maxAge
  let rotationTime := clampNonneg a.rotationTime
  let rotationSize := clampNonneg a.rotationSize
  let linkName := if a.linkNameOpt then a.filePath ++ a.fileName else IsNull
  if 0 < maxAge ∧ 0 < a.rotationCount then
    Except.error "options MaxAge and RotationCount cannot be both set"
  else if allSpaces a.filePath || allSpaces a.fileName then
    Except.error "The log file path or file name is missing"
  else if !a.patternOk then
    Except.error "invalid strftime pattern"
  else if (0 < rotationTime ∨ 0 < maxAge) ∧ a.cronTime = IsNull then
    Except.error "cronTime is required"
  else if (rotationTime ≤ 0 ∨ maxAge ≤ 0) ∧ a.cronTime ≠ IsNull then
    Except.error "rotationTime or maxAge is required"
  else if a.compressFile = true ∧ a.cronTime = IsNull then
    Except.error "To use compressFile, you need to fill in cronTime"
  else
    Except.ok ⟨rotationSize * 1024 * 1024, rotationTime * 24 * 3600,
      maxAge * 24 * 3600, a.rotationCount, a.filePath, a.fileName, linkName⟩

/-- C10: with a non-empty cronTime, New errors unless both rotationTime and
maxAge are positive; with an empty cronTime, New errors whenever
rotationTime or maxAge is positive or compression is requested. -/
theorem c10_cron_requires_time_and_age (a : NewArgs) :
    (a.cronTime ≠ IsNull → ¬(0 < a.rotationTime ∧ 0 < a.maxAge) →
      isErr (newRotateLogs a) = true) ∧
    (a.cronTime = IsNull →
      (0 < a.rotationTime ∨ 0 < a.maxAge ∨ a.compressFile = true) →
      isErr (newRotateLogs a) = true) := by
  constructor
  · intro hc hna
    unfold newRotateLogs
    dsimp only
    split_ifs with h1 h2 h3 h4 h5 h6 <;> try rfl
    all_goals
      exfalso
      rcases not_and_or.mp hna with h | h
      · exact h5 ⟨Or.inl ((clampNonneg_nonpos _).mpr (by omega)), hc⟩
      · exact h5 ⟨Or.inr ((clampNonneg_nonpos _).mpr (by omega)), hc⟩
  · intro hc hor
    unfold newRotateLogs
    dsimp only
    split_ifs with h1 h2 h3 h4 h5 h6 <;> try rfl
    all_goals
      exfalso
      rcases hor with h | h | h
      · exact h4 ⟨Or.inl ((clampNonneg_pos _).mpr h), hc⟩
      · exact h4 ⟨Or.inr ((clampNonneg_pos _).mpr h), hc⟩
      · exact h6 ⟨h, hc⟩

/-- Concrete arguments: non-empty cronTime but rotationTime unset. -/
def args10a : NewArgs :=
  ⟨2, 0, 0, 0, "d/", "app", false, "0 0 1 * * ?", false, true⟩

/-- Concrete arguments: empty cronTime but rotationTime set. -/
def args10b : NewArgs :=
  ⟨0, 1, 0, 0, "d/", "app", false, IsNull, false, true⟩

/-- Witness for C10 at concrete inputs: both directions produce errors. -/
theorem c10_witness :
    isErr (newRotateLogs args10a) = true ∧ isErr (newRotateLogs args10b) = true :=
  ⟨(c10_cron_requires_time_and_age args10a).1 (by decide) (by decide),
   (c10_cron_requires_time_and_age args10b).2 (by decide) (by decide)⟩

/-- C9 (amended): New errors whenever both maxAge and rotationCount are
positive; but when neither is set the construction succeeds with maxAge 0 —
no 7-day default is applied (that default exists only in the historical
variant of New kept beside the current source). -/
theorem c9_retention_exclusive_no_default (a : NewArgs) (cfg : Config) :
    (0 < a.maxAge → 0 < a.rotationCount → isErr (newRotateLogs a) = true) ∧
    (newRotateLogs a = Except.ok cfg → a.maxAge ≤ 0 → a.rotationCount = 0 →
      cfg.maxAge = 0) := by
  constructor
  · intro hma hrc
    unfold newRotateLogs
    dsimp only
    rw [if_pos ⟨(clampNonneg_pos _).mpr hma, hrc⟩]
    rfl
  · intro hok hma hrc
    unfold newRotateLogs at hok
    dsimp only at hok
    split_ifs at hok <;> try exact Except.noConfusion hok
    all_goals
      injection hok with hok
      rw [← hok]
      show clampNonneg a.maxAge * 24 * 3600 = 0
      unfold clampNonneg
      split <;> omega

/-- Concrete arguments with both retention policies set. -/
def args9both : NewArgs :=
  ⟨2, 1, 0, 3, "d/", "app", false, "0 0 1 * * ?", false, true⟩

/-- Concrete arguments with neither retention policy set. -/
def args9 : NewArgs :=
  ⟨0, 0, 0, 0, "d/", "app", false, IsNull, false, true⟩

/-- The configuration New builds from args9. -/
def cfg9 : Config := ⟨0, 0, 0, 0, "d/", "app", IsNull⟩

/-- Witness for C9 at concrete inputs. -/
theorem c9_witness :
    isErr (newRotateLogs args9both) = true ∧ cfg9.maxAge = 0 :=
  ⟨(c9_retention_exclusive_no_default args9both cfg9).1 (by decide) (by decide),
   (c9_retention_exclusive_no_default args9 cfg9).2 rfl (by decide) (by decide)⟩

/-- Fixture filesystem for the C9 counterexample: one family file whose
bucket is far older than seven days. -/
def fs9 : FS := fun p =>
  if p = "d/app-2020-01-01.log" then some ⟨10, false, "app-2020-01-01.log"⟩
  else none

/-- Fixture environment for the C9 counterexample: the clock is hundreds of
days past the old file's bucket. -/
def env9 : Env :=
  ⟨fs9,
   fun n => if n = "app-2020-01-01.log" then some (18262 * 86400) else none,
   18950 * 86400 + 3600, "2021-11-19", 7, fun _ => true, true⟩

/-- C9 counterexample: with neither policy set, New succeeds and the
resulting maxAge is 0, not 7 days; consequently the age pass removes
nothing, even a file far older than 7 days — the object does not behave as
if a 7-day default applied. -/
theorem c9_counterexample :
    newRotateLogs args9 = Except.ok cfg9 ∧
    cfg9.maxAge = 0 ∧
    cfg9.maxAge ≠ 7 * 24 * 3600 ∧
    deleteFile cfg9 env9 ["d/app-2020-01-01.log"] = [] :=
  ⟨rfl, by decide, by decide, by decide⟩

/-- Filesystem snapshot around one compression: whether the source log file
still exists, whether the ".gz" sibling exists as a partly written stream,
and whether it exists fully written and closed. -/
structure CState where
  srcExists : Bool
  dstOpen : Bool
  dstComplete : Bool
deriving DecidableEq

/-- Success of each OS step inside fileutil.compressLogFile, in program
order: os.Open(src), os.Stat(src), os.OpenFile(dst), io.Copy, gz.Close(),
gzf.Close(), f.Close(), os.Remove(src). -/
structure FaultSpec where
  openSrcOk : Bool
  statOk : Bool
  openDstOk : Bool
  copyOk : Bool
  gzCloseOk : Bool
  gzfCloseOk : Bool
  fCloseOk : Bool
  removeOk : Bool
deriving DecidableEq

/-- fileutil.compressLogFile as the sequence of filesystem snapshots it
passes through (the run may also be interrupted at any element).  Failures
before OpenFile leave everything untouched; OpenFile(O_CREATE|O_TRUNC)
creates the sibling as an open stream; any later error triggers the
deferred os.Remove(dst); the two stream closes succeeding makes the sibling
complete; os.Remove(src) runs last, only after everything else succeeded. -/
def compressLogFile (f : FaultSpec) (s0 : CState) : List CState :=
  if !f.openSrcOk then [s0]
  else if !f.statOk then [s0]
  else if !f.openDstOk then [s0]
  else
    let s1 : CState := ⟨s0.srcExists, true, false⟩
    if !f.copyOk then [s1, ⟨s1.srcExists, false, false⟩]
    else if !f.gzCloseOk then [s1, ⟨s1.srcExists, false, false⟩]
    else if !f.gzfCloseOk then [s1, ⟨s1.srcExists, false, false⟩]
    else
      let s2 : CState := ⟨s1.srcExists, false, true⟩
      if !f.fCloseOk then [s1, s2, ⟨s2.srcExists, false, false⟩]
      else if !f.removeOk then [s1, s2, ⟨s2.srcExists, false, false⟩]
      else [s1, s2, ⟨false, false, true⟩]

/-- One iteration of fileutil.CompressLogFiles for a single family file:
skip when the source cannot be stated or a ".gz" sibling already exists,
otherwise run compressLogFile (the wrapper's final os.Remove(f) only runs
after the stat-the-sibling-and-no-error check, when the source was already
removed by compressLogFile itself). -/
def compressLogFilesOne (f : FaultSpec) (s0 : CState) : List CState :=
  if !s0.srcExists then [s0]
  else if s0.dstOpen || s0.dstComplete then [s0]
  else compressLogFile f s0

/-- Within one run of the fileutil compression path, every snapshot (hence
also the state left by any interruption of that run) keeps the original or
a completed compressed sibling, and the original is only ever gone in a
snapshot where the completed sibling exists and both stream closes
succeeded. -/
theorem compressLogFilesOne_keeps_copy :
    ∀ (a b c d e g h i p q : Bool) (s : CState),
      s ∈ (⟨true, p, q⟩ : CState) ::
        compressLogFilesOne ⟨a, b, c, d, e, g, h, i⟩ ⟨true, p, q⟩ →
      (s.srcExists = true ∨ s.dstComplete = true) ∧
      (s.srcExists = false → s.dstComplete = true ∧ e = true ∧ g = true) := by
  decide

/-- strings.TrimSuffix: drops the suffix when present. -/
def trimSuffix (s suffix : String) : String :=
  if hasSuffix s suffix then
    String.mk (s.toList.take (s.toList.length - suffix.toList.length))
  else s

/-- deleteSameLogFile (src/rotatelogs.go lines 360-386): the list of paths
it removes.  A first pass over the glob matches collects every ".gz" match
with the suffix trimmed; a second pass collects every non-".gz" match found
in that set; those are then removed.  Nothing checks whether the ".gz"
sibling is a completed archive. -/
def deleteSameLogFile (globMatches : List String) : List String :=
  let removeSuffixFiles :=
    (globMatches.filter fun path => hasSuffix path CompressSuffix).map
      fun path => trimSuffix path CompressSuffix
  globMatches.filter fun path =>
    !(hasSuffix path CompressSuffix) && removeSuffixFiles.contains path

/-- Appending a suffix yields a string that hasSuffix recognises. -/
theorem hasSuffix_append (s suffix : String) :
    hasSuffix (s ++ suffix) suffix = true := by
  unfold hasSuffix
  rw [List.isSuffixOf_iff_suffix]
  exact ⟨s.toList, rfl⟩

/-- Trimming the suffix just appended gives the original string back. -/
theorem trimSuffix_append (s suffix : String) :
    trimSuffix (s ++ suffix) suffix = s := by
  unfold trimSuffix
  rw [if_pos (hasSuffix_append s suffix)]
  show String.mk ((s.toList ++ suffix.toList).take
    ((s.toList ++ suffix.toList).length - suffix.toList.length)) = s
  rw [List.length_append, Nat.add_sub_cancel, List.take_left]
  rfl

/-- C6 (amended): within one run of fileutil's compression path the original
is removed only after the compressed sibling is complete and the stream
closed without error, so a single interrupted run keeps the original or a
completed sibling; but the maintenance pass deleteSameLogFile removes any
matched original whose ".gz" sibling is merely also matched — with no
completeness check — so a partial sibling left by an interrupted run causes
the original to be deleted on the next pass. -/
theorem c6_compress_and_cleanup :
    (∀ (a b c d e g h i p q : Bool) (s : CState),
      s ∈ (⟨true, p, q⟩ : CState) ::
        compressLogFilesOne ⟨a, b, c, d, e, g, h, i⟩ ⟨true, p, q⟩ →
      (s.srcExists = true ∨ s.dstComplete = true) ∧
      (s.srcExists = false → s.dstComplete = true ∧ e = true ∧ g = true)) ∧
    (∀ (globMatches : List String) (path : String),
      path ∈ globMatches →
      hasSuffix path CompressSuffix = false →
      (path ++ CompressSuffix) ∈ globMatches →
      path ∈ deleteSameLogFile globMatches) := by
  constructor
  · exact compressLogFilesOne_keeps_copy
  · intro globMatches path hmem hnotgz hgz
    unfold deleteSameLogFile
    dsimp only
    rw [List.mem_filter]
    refine ⟨hmem, ?_⟩
    rw [hnotgz]
    simp only [Bool.not_false, Bool.true_and]
    refine List.elem_iff.mpr ?_
    refine List.mem_map.mpr
      ⟨path ++ CompressSuffix, ?_, trimSuffix_append path CompressSuffix⟩
    exact List.mem_filter.mpr ⟨hgz, hasSuffix_append path CompressSuffix⟩

/-- C6 counterexample: an interrupted compression run stops with the
original intact and the ".gz" sibling only partly written (state
srcExists/dstOpen with dstComplete false); the next maintenance pass's
deleteSameLogFile nevertheless removes the original — it only checks that
some ".gz" sibling path exists — so the original is removed although the
compression stream never closed without error, and no complete copy of the
data remains. -/
theorem c6_counterexample :
    (⟨true, true, false⟩ : CState) ∈ (⟨true, false, false⟩ : CState) ::
      compressLogFilesOne ⟨true, true, true, true, true, true, true, true⟩
        ⟨true, false, false⟩ ∧
    (⟨true, true, false⟩ : CState).dstComplete = false ∧
    deleteSameLogFile ["d/app-2021-11-14.log", "d/app-2021-11-14.log.gz"] =
      ["d/app-2021-11-14.log"] :=
  ⟨by decide, by decide, by decide⟩

/-- Witness for C6 at concrete inputs: the final state of a fully
successful run keeps the completed sibling, and the cleanup pass collects
an original whose ".gz" sibling is among the matches. -/
theorem c6_cleanup_witness :
    ((⟨false, false, true⟩ : CState).srcExists = true ∨
      (⟨false, false, true⟩ : CState).dstComplete = true) ∧
    "d/app-2021-11-14.log" ∈
      deleteSameLogFile ["d/app-2021-11-14.log", "d/app-2021-11-14.log.gz"] :=
  ⟨(c6_compress_and_cleanup.1 true true true true true true true true false false
      ⟨false, false, true⟩ (by decide)).1,
   c6_compress_and_cleanup.2 ["d/app-2021-11-14.log", "d/app-2021-11-14.log.gz"]
     "d/app-2021-11-14.log" (by decide) (by decide) (by decide)⟩
